import Mathlib

/-!
A verification development for the `dixi-log-archive` scripts: two
near-identical Node batch jobs that export the previous UTC day's logs
from a ClickHouse-over-HTTP log store, gzip the result and upload it to
Google Drive.  Variant A models `src/scripts/archive-betterstack-to-drive.mjs`
and variant B models `src/unnamed/part_000`.

JavaScript strings are modelled as `List Char`, instants as milliseconds
since the Unix epoch (`Int`, as in `Date.prototype.getTime`), and the
observable side effects of a run as a trace of `Effect`s.  Integer
division `/` and `%` on `Int` below are Lean's Euclidean operations,
which coincide with floor division / nonnegative remainder for the
positive divisors used here — the same convention ECMAScript's `Date`
internals use.
-/

/-- One UTC day in milliseconds (`24 * 60 * 60 * 1000`). -/
def dayMs : Int := 86400000

/-- A proleptic-Gregorian calendar date, as exposed by the ECMAScript
`Date` UTC accessors (`getUTCFullYear` / `getUTCMonth + 1` / `getUTCDate`). -/
structure Civil where
  y : Int
  m : Int
  d : Int
deriving DecidableEq

/-- Civil date of a day number counted from the Unix epoch (1970-01-01),
i.e. the embedding of `new Date(day * 86400000).getUTC{FullYear,Month,Date}`.
This is the standard civil-from-days algorithm for the proleptic Gregorian
calendar, the calendar ECMAScript prescribes for `Date`. -/
def civilFromDays (z0 : Int) : Civil :=
  let z := z0 + 719468
  let era := z / 146097
  let doe := z - era * 146097
  let yoe := (doe - doe / 1460 + doe / 36524 - doe / 146096) / 365
  let y := yoe + era * 400
  let doy := doe - (365 * yoe + yoe / 4 - yoe / 100)
  let mp := (5 * doy + 2) / 153
  let d := doy - (153 * mp + 2) / 5 + 1
  let m := mp + (if mp < 10 then 3 else -9)
  ⟨y + (if m ≤ 2 then 1 else 0), m, d⟩

/-- Day number from the Unix epoch of a civil date: the embedding of
`Date.UTC(y, m - 1, d, 0, 0, 0) / 86400000`. -/
def daysFromCivil (c : Civil) : Int :=
  let y := c.y - (if c.m ≤ 2 then 1 else 0)
  let era := y / 400
  let yoe := y - era * 400
  let doy := (153 * (c.m + (if c.m > 2 then -3 else 9)) + 2) / 5 + c.d - 1
  let doe := yoe * 365 + yoe / 4 - yoe / 100 + doy
  era * 146097 + doe - 719468

/-- `utcRangeForYesterday` from `src/unnamed/part_000`: given the clock
reading `t` (ms since epoch), `end` is `Date.UTC` of today's UTC calendar
fields at midnight and `start` is `end` minus 24 hours. -/
def utcRangeForYesterday (t : Int) : Int × Int :=
  let e := dayMs * daysFromCivil (civilFromDays (t / dayMs))
  let s := e - dayMs
  (s, e)

/-- Left-pad the decimal digits of `n` with zeros to width `w`. -/
def padZeros (w : Nat) (n : Nat) : List Char :=
  let ds := Nat.toDigits 10 n
  List.replicate (w - ds.length) '0' ++ ds

/-- The embedding of `Date.prototype.toISOString` for an instant `t`
(ms since epoch): `YYYY-MM-DDTHH:mm:ss.sssZ`, all fields UTC. -/
def toISOString (t : Int) : List Char :=
  let c := civilFromDays (t / dayMs)
  let ms := t % dayMs
  padZeros 4 c.y.toNat ++ '-' :: padZeros 2 c.m.toNat ++ '-' :: padZeros 2 c.d.toNat ++
  'T' :: padZeros 2 (ms / 3600000).toNat ++ ':' :: padZeros 2 ((ms / 60000) % 60).toNat ++
  ':' :: padZeros 2 ((ms / 1000) % 60).toNat ++ '.' :: padZeros 3 (ms % 1000).toNat ++ ['Z']

/-- Drop the first occurrence of `'Z'`: the embedding of
`String.prototype.replace("Z", "")` as applied to an ISO timestamp. -/
def removeFirstZ : List Char → List Char
  | [] => []
  | c :: r => if c = 'Z' then r else c :: removeFirstZ r

/-- `toCHDateTime64` from `src/unnamed/part_000`:
`d.toISOString().replace("Z", "")`. -/
def toCHDateTime64 (d : Int) : List Char :=
  removeFirstZ (toISOString d)

/-- `utcDateTagForYesterday` from the `.mjs` variant: the `YYYY-MM-DD`
slice of the ISO string of today's UTC midnight minus 24 hours. -/
def utcDateTagForYesterday (t : Int) : List Char :=
  let today00 := dayMs * daysFromCivil (civilFromDays (t / dayMs))
  let y := today00 - dayMs
  (toISOString y).take 10

/-- The ECMAScript `WhiteSpace` and `LineTerminator` character classes,
the set removed by `String.prototype.trim`. -/
def jsWhitespace (c : Char) : Bool :=
  c == '\x20' || c == '\x09' || c == '\x0a' || c == '\x0d' || c == '\x0b' ||
  c == '\x0c' || c == '\u00a0' || c == '\ufeff' || c == '\u2028' || c == '\u2029' ||
  c == '\u1680' || c == '\u2000' || c == '\u2001' || c == '\u2002' ||
  c == '\u2003' || c == '\u2004' || c == '\u2005' || c == '\u2006' ||
  c == '\u2007' || c == '\u2008' || c == '\u2009' || c == '\u200a' ||
  c == '\u202f' || c == '\u205f' || c == '\u3000'

/-- Remove leading JS whitespace (`String.prototype.trimStart`). -/
def trimStart (s : List Char) : List Char := s.dropWhile jsWhitespace

/-- Remove trailing JS whitespace (`String.prototype.trimEnd`). -/
def trimEnd (s : List Char) : List Char := (s.reverse.dropWhile jsWhitespace).reverse

/-- The embedding of `String.prototype.trim`. -/
def jsTrim (s : List Char) : List Char := trimEnd (trimStart s)

/-- The embedding of `.replace(/\/+$/, "")`: strip every trailing slash. -/
def stripTrailingSlashes (s : List Char) : List Char :=
  (s.reverse.dropWhile (fun c => c == '/')).reverse

/-- The process environment: the eight variables destructured from
`process.env` at the top of both scripts.  `none` models an unset
variable. -/
structure Env where
  chUrl : Option (List Char)
  chUser : Option (List Char)
  chPass : Option (List Char)
  table : Option (List Char)
  folderId : Option (List Char)
  clientId : Option (List Char)
  clientSecret : Option (List Char)
  refreshToken : Option (List Char)

/-- `must(v, name)`: throw `Missing env var: <name>` when `v` is falsy
(unset or the empty string), else return it. -/
def must (v : Option (List Char)) (name : List Char) :
    Except (List Char) (List Char) :=
  match v with
  | none => Except.error (("Missing env var: ".toList) ++ name)
  | some s =>
    if s.isEmpty then Except.error (("Missing env var: ".toList) ++ name)
    else Except.ok s

/-- The validated configuration, after every `must` check passed. -/
structure Config where
  chUrl : List Char
  chUser : List Char
  chPass : List Char
  table : List Char
  folderId : List Char
  clientId : List Char
  clientSecret : List Char
  refreshToken : List Char

/-- The module-level `must(...)` cascade both scripts run before `main()`:
the first falsy variable aborts the process, in source order. -/
def loadConfig (e : Env) : Except (List Char) Config :=
  match must e.chUrl ("BETTERSTACK_CH_URL".toList) with
  | Except.error m => Except.error m
  | Except.ok v1 =>
  match must e.chUser ("BETTERSTACK_CH_USER".toList) with
  | Except.error m => Except.error m
  | Except.ok v2 =>
  match must e.chPass ("BETTERSTACK_CH_PASS".toList) with
  | Except.error m => Except.error m
  | Except.ok v3 =>
  match must e.table ("BETTERSTACK_LOGS_TABLE".toList) with
  | Except.error m => Except.error m
  | Except.ok v4 =>
  match must e.folderId ("DRIVE_FOLDER_ID".toList) with
  | Except.error m => Except.error m
  | Except.ok v5 =>
  match must e.clientId ("GOOGLE_OAUTH_CLIENT_ID".toList) with
  | Except.error m => Except.error m
  | Except.ok v6 =>
  match must e.clientSecret ("GOOGLE_OAUTH_CLIENT_SECRET".toList) with
  | Except.error m => Except.error m
  | Except.ok v7 =>
  match must e.refreshToken ("GOOGLE_OAUTH_REFRESH_TOKEN".toList) with
  | Except.error m => Except.error m
  | Except.ok v8 => Except.ok ⟨v1, v2, v3, v4, v5, v6, v7, v8⟩

/-- The log store's HTTP response, as observed through `fetch`. -/
structure Response where
  status : Nat
  body : List Char

/-- `Response.ok` per the WHATWG fetch standard: status in 200..299. -/
def respOk (r : Response) : Bool :=
  decide (200 ≤ r.status ∧ r.status ≤ 299)

/-- The observable side effects of a run. -/
inductive Effect where
  | httpRequest (sql : List Char)
  | gzipFile
  | writeFile (name : List Char)
  | upload (name : List Char)
  | deleteFile (name : List Char)
deriving DecidableEq

/-- `chQuery` from the `.mjs` variant: normalize the endpoint URL (trim,
strip trailing slashes), require an `http(s)://` scheme before any fetch,
then POST the query; a non-2xx status becomes an error carrying the status
and the first 1600 characters of the body. -/
def chQueryA (sql : List Char) (cfg : Config) (resp : Response) :
    Except (List Char) (List Char) × List Effect :=
  let chUrl := stripTrailingSlashes (jsTrim cfg.chUrl)
  if ("http://".toList).isPrefixOf chUrl || ("https://".toList).isPrefixOf chUrl then
    let text := resp.body
    if respOk resp then (Except.ok text, [Effect.httpRequest sql])
    else
      (Except.error (("ClickHouse HTTP ".toList) ++ Nat.toDigits 10 resp.status ++
        (": ".toList) ++ text.take 1600), [Effect.httpRequest sql])
  else
    (Except.error (("BETTERSTACK_CH_URL must start with http(s)://. Got: ".toList) ++
      chUrl), [])

/-- `chQuery` from `src/unnamed/part_000`: identical except the error
snippet keeps only the first 1200 characters of the body. -/
def chQueryB (sql : List Char) (cfg : Config) (resp : Response) :
    Except (List Char) (List Char) × List Effect :=
  let chUrl := stripTrailingSlashes (jsTrim cfg.chUrl)
  if ("http://".toList).isPrefixOf chUrl || ("https://".toList).isPrefixOf chUrl then
    let text := resp.body
    if respOk resp then (Except.ok text, [Effect.httpRequest sql])
    else
      (Except.error (("ClickHouse HTTP ".toList) ++ Nat.toDigits 10 resp.status ++
        (": ".toList) ++ text.take 1200), [Effect.httpRequest sql])
  else
    (Except.error (("BETTERSTACK_CH_URL must start with http(s)://. Got: ".toList) ++
      chUrl), [])

/-- The SQL template literal of the `.mjs` variant (day boundaries are
computed inside ClickHouse; noise filter on `syslog.appname`), after the
trailing `.trim()`. -/
def sqlA (table : List Char) : List Char :=
  jsTrim
    (("\nWITH\n  toStartOfDay(now(\x27UTC\x27)) AS today_utc,\n  today_utc - INTERVAL 1 DAY AS yesterday_utc\nSELECT\n  dt,\n  raw\nFROM remote(").toList ++
     table ++
     (")\nWHERE dt >= yesterday_utc\n  AND dt <  today_utc\n  AND JSONExtractString(raw, \x27syslog.appname\x27) NOT LIKE \x27dpg-%\x27\nORDER BY dt ASC\nFORMAT JSONEachRow\n").toList)

/-- The SQL template literal of `src/unnamed/part_000` (explicit
`toDateTime64` bounds rendered from the computed window), after the
trailing `.trim()`. -/
def sqlB (table startStr endStr : List Char) : List Char :=
  jsTrim
    (("\nSELECT\n  dt,\n  raw\nFROM remote(").toList ++
     table ++
     (")\nWHERE dt >= toDateTime64(\x27").toList ++
     startStr ++
     ("\x27, 3, \x27UTC\x27)\n  AND dt <  toDateTime64(\x27").toList ++
     endStr ++
     ("\x27, 3, \x27UTC\x27)\nORDER BY dt ASC\nFORMAT JSONEachRow\n").toList)

/-- `main()` of the `.mjs` variant, as a function of the clock reading,
the validated config and the log store's response.  Returns the exit code
and the trace of observable actions.  Includes the empty-result
short-circuit: an empty (or whitespace-only) body skips compression,
upload and cleanup and exits 0. -/
def mainA (t : Int) (cfg : Config) (resp : Response) : Nat × List Effect :=
  let day := utcDateTagForYesterday t
  let outName := ("dixi-logs-".toList) ++ day ++ (".jsonl.gz".toList)
  let sql := sqlA cfg.table
  match chQueryA sql cfg resp with
  | (Except.error _, acts) => (1, acts)
  | (Except.ok jsonl, acts) =>
    if jsonl.isEmpty || (jsTrim jsonl).isEmpty then (0, acts)
    else
      (0, acts ++ [Effect.gzipFile, Effect.writeFile outName,
                   Effect.upload outName, Effect.deleteFile outName])

/-- `main()` of `src/unnamed/part_000`: computes the window, renders the
date tag from the window's start, queries, then always compresses,
uploads and deletes (no empty-result short-circuit). -/
def mainB (t : Int) (cfg : Config) (resp : Response) : Nat × List Effect :=
  let se := utcRangeForYesterday t
  let day := (toISOString se.1).take 10
  let outName := ("dixi-logs-".toList) ++ day ++ (".jsonl.gz".toList)
  let sql := sqlB cfg.table (toCHDateTime64 se.1) (toCHDateTime64 se.2)
  match chQueryB sql cfg resp with
  | (Except.error _, acts) => (1, acts)
  | (Except.ok _, acts) =>
    (0, acts ++ [Effect.gzipFile, Effect.writeFile outName,
                 Effect.upload outName, Effect.deleteFile outName])

/-- Whole-process model of the `.mjs` variant: the env-var `must` cascade
runs at module load, before `main()`; any failure exits 1 with no actions
performed. -/
def programA (e : Env) (t : Int) (resp : Response) : Nat × List Effect :=
  match loadConfig e with
  | Except.error _ => (1, [])
  | Except.ok cfg => mainA t cfg resp

/-- Whole-process model of `src/unnamed/part_000`, same shape. -/
def programB (e : Env) (t : Int) (resp : Response) : Nat × List Effect :=
  match loadConfig e with
  | Except.error _ => (1, [])
  | Except.ok cfg => mainB t cfg resp

/-- Modelled from the spec: the repository calls `zlib.gzipSync(payload,
{ level: 9 })` / gzip decompression from Node's `zlib`, whose
implementation is not part of this repository.  Per spec §4.4 the
compression step is a lossless byte codec; it is modelled here as an
executable run-length codec over bytes.  Runs are capped at 255 so every
emitted length fits in one byte. -/
def rleEncode : List Nat → List (Nat × Nat)
  | [] => []
  | b :: rest =>
    match rleEncode rest with
    | (n, c) :: tail =>
      if c = b ∧ n < 255 then (n + 1, c) :: tail else (1, b) :: (n, c) :: tail
    | [] => [(1, b)]

/-- Serialize run-length pairs as a flat byte list. -/
def flattenRuns : List (Nat × Nat) → List Nat
  | [] => []
  | (n, c) :: tail => n :: c :: flattenRuns tail

/-- Expand run-length pairs back into bytes. -/
def expandRuns : List (Nat × Nat) → List Nat
  | [] => []
  | (n, c) :: tail => List.replicate n c ++ expandRuns tail

/-- Modelled from the spec: `zlib.gzipSync(data, { level })`.  The level
selects the effort of the (lossless) encoder; it does not change
decodability. -/
def gzipSync (_level : Nat) (data : List Nat) : List Nat :=
  flattenRuns (rleEncode data)

/-- Modelled from the spec: gzip decompression (`zlib.gunzipSync`). -/
def gunzipSync : List Nat → List Nat
  | n :: c :: rest => List.replicate n c ++ gunzipSync rest
  | _ => []

/-- A well-formed configuration used to instantiate theorems with
hypotheses at concrete inputs. -/
def cfgGood : Config :=
  ⟨"https://example.com".toList, "user".toList, "pass".toList, "tbl".toList,
   "folder".toList, "cid".toList, "csecret".toList, "rtoken".toList⟩

/-- A configuration whose endpoint URL lacks an `http(s)://` scheme. -/
def cfgBadUrl : Config :=
  ⟨"  ftp://example.com//".toList, "user".toList, "pass".toList, "tbl".toList,
   "folder".toList, "cid".toList, "csecret".toList, "rtoken".toList⟩

/-- An environment with the first required variable unset. -/
def envMissingUrl : Env :=
  ⟨none, some ("user".toList), some ("pass".toList), some ("tbl".toList),
   some ("folder".toList), some ("cid".toList), some ("csecret".toList),
   some ("rtoken".toList)⟩

/-- A successful log-store response with a nonempty body. -/
def respWithLogs : Response := ⟨200, "log line".toList⟩

/-- A successful log-store response with an empty body. -/
def respEmpty : Response := ⟨200, []⟩

/-- A successful log-store response whose body is only whitespace. -/
def respBlank : Response := ⟨200, " \n \t\n".toList⟩

/-- A failing log-store response. -/
def respServerError : Response := ⟨500, "internal error".toList⟩

/-- The fixed text of variant A's query before the interpolated table name. -/
def sqlAPre : List Char :=
  ("WITH\n  toStartOfDay(now(\x27UTC\x27)) AS today_utc,\n  today_utc - INTERVAL 1 DAY AS yesterday_utc\nSELECT\n  dt,\n  raw\nFROM remote(").toList

/-- The fixed text of variant A's query after the interpolated table name. -/
def sqlAPost : List Char :=
  (")\nWHERE dt >= yesterday_utc\n  AND dt <  today_utc\n  AND JSONExtractString(raw, \x27syslog.appname\x27) NOT LIKE \x27dpg-%\x27\nORDER BY dt ASC\nFORMAT JSONEachRow").toList

/-- Variant B's query text before the table name. -/
def sqlBPre : List Char := ("SELECT\n  dt,\n  raw\nFROM remote(").toList

/-- Variant B's query text between the table name and the start bound. -/
def sqlBMid1 : List Char := (")\nWHERE dt >= toDateTime64(\x27").toList

/-- Variant B's query text between the start bound and the end bound. -/
def sqlBMid2 : List Char :=
  ("\x27, 3, \x27UTC\x27)\n  AND dt <  toDateTime64(\x27").toList

/-- Variant B's query text after the end bound. -/
def sqlBPost : List Char :=
  ("\x27, 3, \x27UTC\x27)\nORDER BY dt ASC\nFORMAT JSONEachRow").toList

theorem civilFromDays_components (z : Int) :
    ∃ era doe yoe doy mp,
      era = (z + 719468) / 146097 ∧
      doe = z + 719468 - era * 146097 ∧
      yoe = (doe - doe / 1460 + doe / 36524 - doe / 146096) / 365 ∧
      doy = doe - (365 * yoe + yoe / 4 - yoe / 100) ∧
      mp = (5 * doy + 2) / 153 ∧
      civilFromDays z =
        ⟨yoe + era * 400 +
           (if mp + (if mp < 10 then 3 else -9) ≤ 2 then 1 else 0),
         mp + (if mp < 10 then 3 else -9),
         doy - (153 * mp + 2) / 5 + 1⟩ :=
  ⟨_, _, _, _, _, rfl, rfl, rfl, rfl, rfl, rfl⟩

theorem doy_bounds_aux (doe yoe E : Int) (_h0 : 0 ≤ doe) (_h1 : doe < 146097)
    (hy : yoe = (doe - doe / 1460 + doe / 36524 - doe / 146096) / 365)
    (hE : doe / 36524 = E) (hE4 : E = 0 ∨ E = 1 ∨ E = 2 ∨ E = 3) :
    0 ≤ doe - (365 * yoe + yoe / 4 - yoe / 100) ∧
    doe - (365 * yoe + yoe / 4 - yoe / 100) ≤ 365 := by
  obtain ⟨s, hs, hs0, hs1⟩ : ∃ s, doe = 36524 * E + s ∧ 0 ≤ s ∧ s ≤ 36523 :=
    ⟨doe - 36524 * E, by omega, by omega, by omega⟩
  rcases hE4 with h | h | h | h <;>
  · have hu : doe / 1460 = 25 * E + (s + 24 * E) / 1460 := by omega
    have hv : doe / 146096 = 0 := by omega
    have ht : yoe = 100 * E + (s - (s + 24 * E) / 1460) / 365 := by omega
    have ht0 : 0 ≤ (s - (s + 24 * E) / 1460) / 365 := by omega
    have ht99 : (s - (s + 24 * E) / 1460) / 365 ≤ 99 := by omega
    have hg : yoe / 4 = 25 * E + ((s - (s + 24 * E) / 1460) / 365) / 4 := by omega
    have hh : yoe / 100 = E := by omega
    omega

theorem doy_bounds (doe yoe : Int) (h0 : 0 ≤ doe) (h1 : doe < 146097)
    (hy : yoe = (doe - doe / 1460 + doe / 36524 - doe / 146096) / 365) :
    0 ≤ doe - (365 * yoe + yoe / 4 - yoe / 100) ∧
    doe - (365 * yoe + yoe / 4 - yoe / 100) ≤ 365 := by
  have hcent : doe / 36524 = 0 ∨ doe / 36524 = 1 ∨ doe / 36524 = 2 ∨
      doe / 36524 = 3 ∨ doe / 36524 = 4 := by omega
  rcases hcent with hE | hE | hE | hE | hE
  · exact doy_bounds_aux doe yoe 0 h0 h1 hy hE (Or.inl rfl)
  · exact doy_bounds_aux doe yoe 1 h0 h1 hy hE (Or.inr (Or.inl rfl))
  · exact doy_bounds_aux doe yoe 2 h0 h1 hy hE (Or.inr (Or.inr (Or.inl rfl)))
  · exact doy_bounds_aux doe yoe 3 h0 h1 hy hE (Or.inr (Or.inr (Or.inr rfl)))
  · have h146096 : doe = 146096 := by omega
    omega

/-- The two calendar conversions are mutually inverse on day numbers: the
ECMAScript guarantee that `Date.UTC` applied to the UTC calendar fields of
an instant recovers the instant's day. -/
theorem daysFromCivil_civilFromDays (z : Int) :
    daysFromCivil (civilFromDays z) = z := by
  obtain ⟨era, doe, yoe, doy, mp, hera, hdoe, hyoe, hdoy, hmp, hc⟩ :=
    civilFromDays_components z
  have hdoe_lb : 0 ≤ doe := by omega
  have hdoe_ub : doe < 146097 := by omega
  have hyoe_lb : 0 ≤ yoe := by omega
  have hyoe_ub : yoe ≤ 399 := by omega
  have hdoy2 := doy_bounds doe yoe hdoe_lb hdoe_ub hyoe
  have hmp_lb : 0 ≤ mp := by omega
  have hmp_ub : mp ≤ 11 := by omega
  have hk : (yoe + era * 400) / 400 = era := by omega
  have hl : (yoe + era * 400 - (yoe + era * 400) / 400 * 400) / 4 = yoe / 4 := by
    omega
  have hm : (yoe + era * 400 - (yoe + era * 400) / 400 * 400) / 100 = yoe / 100 := by
    omega
  rw [hc]
  unfold daysFromCivil
  simp only []
  split_ifs <;> simp only [add_sub_cancel_right, add_neg_cancel_right] <;> omega



theorem utcRange_fst (t : Int) :
    (utcRangeForYesterday t).1 = 86400000 * (t / 86400000) - 86400000 := by
  simp [utcRangeForYesterday, dayMs, daysFromCivil_civilFromDays]

theorem utcRange_snd (t : Int) :
    (utcRangeForYesterday t).2 = 86400000 * (t / 86400000) := by
  simp [utcRangeForYesterday, dayMs, daysFromCivil_civilFromDays]

/-- C1: for every invocation instant `t`, the computed window has
`end ≤ t`, `end` aligned to a UTC midnight (a multiple of 86400000 ms),
`end − start` exactly 24 hours, and consequently `start` is also
midnight-aligned and `start < end`.  The `.mjs` variant's date tag is the
date of the same window's start. -/
theorem claim1_window_end_midnight_24h (t : Int) :
    (utcRangeForYesterday t).2 ≤ t ∧
    (utcRangeForYesterday t).2 % 86400000 = 0 ∧
    (utcRangeForYesterday t).2 - (utcRangeForYesterday t).1 = 86400000 ∧
    (utcRangeForYesterday t).1 % 86400000 = 0 ∧
    (utcRangeForYesterday t).1 < (utcRangeForYesterday t).2 ∧
    utcDateTagForYesterday t = (toISOString (utcRangeForYesterday t).1).take 10 := by
  have h1 := utcRange_fst t
  have h2 := utcRange_snd t
  refine ⟨?_, ?_, ?_, ?_, ?_, rfl⟩ <;> omega

/-- C6 (as written) is false: at `2024-03-10T09:00:00Z` the computed
`end` is `2024-03-10T00:00:00Z`, which is *not* strictly after the
invocation instant. -/
theorem claim6_counterexample :
    (utcRangeForYesterday 1710061200000).2 = 1710028800000 ∧
    ¬ (1710061200000 < (utcRangeForYesterday 1710061200000).2) := by decide

/-- C6 (amended): `end` is the most recent UTC midnight at or before the
invocation instant (not strictly after it), and `start = end − 24h`. -/
theorem claim6_end_is_latest_midnight_at_or_before (t : Int) :
    (utcRangeForYesterday t).2 % 86400000 = 0 ∧
    (utcRangeForYesterday t).2 ≤ t ∧
    (∀ m : Int, m % 86400000 = 0 → m ≤ t → m ≤ (utcRangeForYesterday t).2) ∧
    (utcRangeForYesterday t).1 = (utcRangeForYesterday t).2 - 86400000 := by
  rw [utcRange_fst, utcRange_snd]
  refine ⟨by omega, by omega, ?_, by omega⟩
  intro m hm hmt
  omega

/-- Witness for the amended C6 at the concrete instant
`2024-03-10T09:00:00Z`, with the inner midnight quantifier instantiated at
`2024-03-10T00:00:00Z`. -/
theorem claim6_end_is_latest_midnight_witness :
    1710028800000 ≤ (utcRangeForYesterday 1710061200000).2 :=
  (claim6_end_is_latest_midnight_at_or_before 1710061200000).2.2.1
    1710028800000 (by decide) (by decide)

/-- C8: with the clock at `2024-03-10T09:00:00Z` the window is
`[2024-03-09T00:00:00Z, 2024-03-10T00:00:00Z)`, both variants tag the
output with the window's start day, and the archive filename is
`dixi-logs-2024-03-09.jsonl.gz`. -/
theorem claim8_scenario_2024_03_10 :
    utcRangeForYesterday 1710061200000 = (1709942400000, 1710028800000) ∧
    utcDateTagForYesterday 1710061200000 = "2024-03-09".toList ∧
    (toISOString (utcRangeForYesterday 1710061200000).1).take 10 =
      "2024-03-09".toList ∧
    ("dixi-logs-".toList) ++ utcDateTagForYesterday 1710061200000 ++
      (".jsonl.gz".toList) = "dixi-logs-2024-03-09.jsonl.gz".toList := by
  decide

theorem gunzipSync_flattenRuns (rs : List (Nat × Nat)) :
    gunzipSync (flattenRuns rs) = expandRuns rs := by
  induction rs with
  | nil => rfl
  | cons p tail ih =>
    obtain ⟨n, c⟩ := p
    simp [flattenRuns, gunzipSync, expandRuns, ih]

theorem expandRuns_rleEncode (l : List Nat) :
    expandRuns (rleEncode l) = l := by
  induction l with
  | nil => rfl
  | cons b rest ih =>
    simp only [rleEncode]
    cases h : rleEncode rest with
    | nil =>
      rw [h] at ih
      simp [expandRuns] at ih
      simp [expandRuns, ih]
    | cons p tl =>
      obtain ⟨n, c⟩ := p
      rw [h] at ih
      simp only []
      split_ifs with hcond
      · obtain ⟨rfl, -⟩ := hcond
        simp only [expandRuns, List.replicate_succ] at ih ⊢
        simp [ih]
      · simp [expandRuns] at ih ⊢
        simp [ih]

/-- C5: decompressing the output of the compression step (gzip at maximum
level 9) recovers the input payload byte-for-byte. -/
theorem claim5_gzip_roundtrip (data : List Nat) :
    gunzipSync (gzipSync 9 data) = data := by
  unfold gzipSync
  rw [gunzipSync_flattenRuns, expandRuns_rleEncode]

theorem must_ok_ne_none (v : Option (List Char)) (name s : List Char)
    (h : must v name = Except.ok s) : v ≠ none := by
  intro hv
  subst hv
  simp [must] at h

theorem loadConfig_ok_all_present (e : Env) (cfg : Config)
    (h : loadConfig e = Except.ok cfg) :
    e.chUrl ≠ none ∧ e.chUser ≠ none ∧ e.chPass ≠ none ∧ e.table ≠ none ∧
    e.folderId ≠ none ∧ e.clientId ≠ none ∧ e.clientSecret ≠ none ∧
    e.refreshToken ≠ none := by
  unfold loadConfig at h
  cases h1 : must e.chUrl ("BETTERSTACK_CH_URL".toList) with
  | error m => rw [h1] at h; simp at h
  | ok v1 =>
  rw [h1] at h
  cases h2 : must e.chUser ("BETTERSTACK_CH_USER".toList) with
  | error m => rw [h2] at h; simp at h
  | ok v2 =>
  rw [h2] at h
  cases h3 : must e.chPass ("BETTERSTACK_CH_PASS".toList) with
  | error m => rw [h3] at h; simp at h
  | ok v3 =>
  rw [h3] at h
  cases h4 : must e.table ("BETTERSTACK_LOGS_TABLE".toList) with
  | error m => rw [h4] at h; simp at h
  | ok v4 =>
  rw [h4] at h
  cases h5 : must e.folderId ("DRIVE_FOLDER_ID".toList) with
  | error m => rw [h5] at h; simp at h
  | ok v5 =>
  rw [h5] at h
  cases h6 : must e.clientId ("GOOGLE_OAUTH_CLIENT_ID".toList) with
  | error m => rw [h6] at h; simp at h
  | ok v6 =>
  rw [h6] at h
  cases h7 : must e.clientSecret ("GOOGLE_OAUTH_CLIENT_SECRET".toList) with
  | error m => rw [h7] at h; simp at h
  | ok v7 =>
  rw [h7] at h
  cases h8 : must e.refreshToken ("GOOGLE_OAUTH_REFRESH_TOKEN".toList) with
  | error m => rw [h8] at h; simp at h
  | ok v8 =>
  exact ⟨must_ok_ne_none _ _ _ h1, must_ok_ne_none _ _ _ h2,
         must_ok_ne_none _ _ _ h3, must_ok_ne_none _ _ _ h4,
         must_ok_ne_none _ _ _ h5, must_ok_ne_none _ _ _ h6,
         must_ok_ne_none _ _ _ h7, must_ok_ne_none _ _ _ h8⟩

/-- C4: if any required environment variable is unset, both variants exit
with status 1 before performing any observable action — in particular
before any network request. -/
theorem claim4_missing_env_fails_before_network (e : Env) (t : Int)
    (resp : Response)
    (h : e.chUrl = none ∨ e.chUser = none ∨ e.chPass = none ∨ e.table = none ∨
         e.folderId = none ∨ e.clientId = none ∨ e.clientSecret = none ∨
         e.refreshToken = none) :
    programA e t resp = (1, []) ∧ programB e t resp = (1, []) := by
  cases hl : loadConfig e with
  | error m => simp [programA, programB, hl]
  | ok cfg =>
    have hp := loadConfig_ok_all_present e cfg hl
    rcases h with h | h | h | h | h | h | h | h <;> simp_all

/-- Witness for C4: with `BETTERSTACK_CH_URL` unset, both variants exit 1
with an empty action trace. -/
theorem claim4_missing_env_witness :
    programA envMissingUrl 0 respWithLogs = (1, []) ∧
    programB envMissingUrl 0 respWithLogs = (1, []) :=
  claim4_missing_env_fails_before_network envMissingUrl 0 respWithLogs
    (Or.inl rfl)

theorem head_dropWhile_false (p : Char → Bool) (l : List Char) (c : Char)
    (h : (l.dropWhile p).head? = some c) : p c = false := by
  induction l with
  | nil => simp [List.dropWhile] at h
  | cons a tail ih =>
    rw [List.dropWhile_cons] at h
    by_cases hp : p a = true
    · rw [if_pos hp] at h
      exact ih h
    · rw [if_neg hp] at h
      obtain rfl : a = c := by simpa using h
      simpa using hp

theorem stripTrailingSlashes_no_slash (s : List Char) (c : Char)
    (h : (stripTrailingSlashes s).getLast? = some c) : c ≠ '/' := by
  unfold stripTrailingSlashes at h
  rw [List.getLast?_reverse] at h
  have hc := head_dropWhile_false _ _ _ h
  intro hc2
  subst hc2
  simp at hc

/-- C9: `chQuery` first normalizes the endpoint URL — trimming surrounding
whitespace and stripping all trailing slashes — and when the normalized URL
does not start with `http://` or `https://` it fails in both variants with
the scheme error and performs no action at all (no network request); the
normalized URL indeed never ends in a slash. -/
theorem claim9_bad_url_no_request (sql : List Char) (cfg : Config)
    (resp : Response)
    (h : (("http://".toList).isPrefixOf (stripTrailingSlashes (jsTrim cfg.chUrl)) ||
          ("https://".toList).isPrefixOf (stripTrailingSlashes (jsTrim cfg.chUrl)))
         = false) :
    chQueryA sql cfg resp =
      (Except.error
        (("BETTERSTACK_CH_URL must start with http(s)://. Got: ".toList) ++
         stripTrailingSlashes (jsTrim cfg.chUrl)), []) ∧
    chQueryB sql cfg resp =
      (Except.error
        (("BETTERSTACK_CH_URL must start with http(s)://. Got: ".toList) ++
         stripTrailingSlashes (jsTrim cfg.chUrl)), []) ∧
    (∀ c, (stripTrailingSlashes (jsTrim cfg.chUrl)).getLast? = some c →
      c ≠ '/') := by
  refine ⟨?_, ?_, fun c hc => stripTrailingSlashes_no_slash _ c hc⟩
  · unfold chQueryA
    rw [if_neg (by rw [h]; simp)]
  · unfold chQueryB
    rw [if_neg (by rw [h]; simp)]

/-- Witness for C9 at a concrete config whose URL is `ftp://`-schemed. -/
theorem claim9_bad_url_witness :
    chQueryA ("q".toList) cfgBadUrl respWithLogs =
      (Except.error
        (("BETTERSTACK_CH_URL must start with http(s)://. Got: ".toList) ++
         stripTrailingSlashes (jsTrim cfgBadUrl.chUrl)), []) :=
  (claim9_bad_url_no_request ("q".toList) cfgBadUrl respWithLogs (by decide)).1

theorem dropWhile_eq_nil_of_all (p : Char → Bool) (l : List Char)
    (h : ∀ c ∈ l, p c = true) : l.dropWhile p = [] := by
  induction l with
  | nil => rfl
  | cons a tail ih =>
    rw [List.dropWhile_cons, if_pos (h a (by simp))]
    exact ih (fun c hc => h c (by simp [hc]))

theorem jsTrim_all_ws (l : List Char)
    (h : ∀ c ∈ l, jsWhitespace c = true) : jsTrim l = [] := by
  unfold jsTrim trimStart trimEnd
  rw [dropWhile_eq_nil_of_all _ _ h]
  rfl

/-- C7: in the variant with the empty-result short-circuit (the `.mjs`
variant), an empty response body makes the pipeline exit 0 with the query
as its only action: no compression, no file creation, no upload, no
cleanup. -/
theorem claim7_empty_body_skips_upload (t : Int) (cfg : Config)
    (resp : Response)
    (hurl : (("http://".toList).isPrefixOf (stripTrailingSlashes (jsTrim cfg.chUrl)) ||
             ("https://".toList).isPrefixOf (stripTrailingSlashes (jsTrim cfg.chUrl)))
            = true)
    (hok : respOk resp = true)
    (hempty : resp.body = []) :
    mainA t cfg resp = (0, [Effect.httpRequest (sqlA cfg.table)]) ∧
    Effect.gzipFile ∉ (mainA t cfg resp).2 ∧
    (∀ nm, Effect.writeFile nm ∉ (mainA t cfg resp).2 ∧
           Effect.upload nm ∉ (mainA t cfg resp).2 ∧
           Effect.deleteFile nm ∉ (mainA t cfg resp).2) := by
  have hmain : mainA t cfg resp = (0, [Effect.httpRequest (sqlA cfg.table)]) := by
    unfold mainA chQueryA
    simp only []
    rw [if_pos hurl, if_pos hok, hempty]
    simp
  refine ⟨hmain, ?_, fun nm => ⟨?_, ?_, ?_⟩⟩ <;> rw [hmain] <;> simp

/-- Witness for C7: a 200 response with empty body at a valid config. -/
theorem claim7_empty_body_witness :
    mainA 0 cfgGood respEmpty = (0, [Effect.httpRequest (sqlA cfgGood.table)]) :=
  (claim7_empty_body_skips_upload 0 cfgGood respEmpty (by decide) (by decide)
    rfl).1

/-- C10: the emptiness test trims the body first, so a response consisting
only of whitespace characters also takes the successful skip path of the
`.mjs` variant. -/
theorem claim10_whitespace_body_skips (t : Int) (cfg : Config)
    (resp : Response)
    (hurl : (("http://".toList).isPrefixOf (stripTrailingSlashes (jsTrim cfg.chUrl)) ||
             ("https://".toList).isPrefixOf (stripTrailingSlashes (jsTrim cfg.chUrl)))
            = true)
    (hok : respOk resp = true)
    (hws : ∀ c ∈ resp.body, jsWhitespace c = true) :
    mainA t cfg resp = (0, [Effect.httpRequest (sqlA cfg.table)]) := by
  have htrim : jsTrim resp.body = [] := jsTrim_all_ws _ hws
  unfold mainA chQueryA
  simp only []
  rw [if_pos hurl, if_pos hok]
  simp [htrim]

/-- Witness for C10: a 200 response whose body is nonempty whitespace
(`" \n \t\n"`) still skips compression and upload and exits 0. -/
theorem claim10_whitespace_body_witness :
    mainA 0 cfgGood respBlank = (0, [Effect.httpRequest (sqlA cfgGood.table)]) ∧
    respBlank.body ≠ [] :=
  ⟨claim10_whitespace_body_skips 0 cfgGood respBlank (by decide) (by decide)
    (by decide), by decide⟩

theorem chQueryA_non2xx (sql : List Char) (cfg : Config) (resp : Response)
    (hurl : (("http://".toList).isPrefixOf (stripTrailingSlashes (jsTrim cfg.chUrl)) ||
             ("https://".toList).isPrefixOf (stripTrailingSlashes (jsTrim cfg.chUrl)))
            = true)
    (hok : respOk resp = false) :
    chQueryA sql cfg resp =
      (Except.error (("ClickHouse HTTP ".toList) ++ Nat.toDigits 10 resp.status ++
        (": ".toList) ++ resp.body.take 1600), [Effect.httpRequest sql]) := by
  unfold chQueryA
  simp only []
  rw [if_pos hurl, if_neg (by rw [hok]; simp)]

theorem chQueryB_non2xx (sql : List Char) (cfg : Config) (resp : Response)
    (hurl : (("http://".toList).isPrefixOf (stripTrailingSlashes (jsTrim cfg.chUrl)) ||
             ("https://".toList).isPrefixOf (stripTrailingSlashes (jsTrim cfg.chUrl)))
            = true)
    (hok : respOk resp = false) :
    chQueryB sql cfg resp =
      (Except.error (("ClickHouse HTTP ".toList) ++ Nat.toDigits 10 resp.status ++
        (": ".toList) ++ resp.body.take 1200), [Effect.httpRequest sql]) := by
  unfold chQueryB
  simp only []
  rw [if_pos hurl, if_neg (by rw [hok]; simp)]

/-- C2: on a non-2xx status, `chQuery` fails with the `ClickHouse HTTP`
error carrying the numeric status and a body snippet truncated to 1600
characters (variant A) resp. 1200 characters (variant B), and the run of
either variant exits 1 with the query as its only action — no compression
and no upload. -/
theorem claim2_non2xx_query_failed (t : Int) (cfg : Config) (resp : Response)
    (sql : List Char)
    (hurl : (("http://".toList).isPrefixOf (stripTrailingSlashes (jsTrim cfg.chUrl)) ||
             ("https://".toList).isPrefixOf (stripTrailingSlashes (jsTrim cfg.chUrl)))
            = true)
    (hok : respOk resp = false) :
    chQueryA sql cfg resp =
      (Except.error (("ClickHouse HTTP ".toList) ++ Nat.toDigits 10 resp.status ++
        (": ".toList) ++ resp.body.take 1600), [Effect.httpRequest sql]) ∧
    chQueryB sql cfg resp =
      (Except.error (("ClickHouse HTTP ".toList) ++ Nat.toDigits 10 resp.status ++
        (": ".toList) ++ resp.body.take 1200), [Effect.httpRequest sql]) ∧
    (resp.body.take 1600).length ≤ 1600 ∧
    (resp.body.take 1200).length ≤ 1200 ∧
    mainA t cfg resp = (1, [Effect.httpRequest (sqlA cfg.table)]) ∧
    mainB t cfg resp =
      (1, [Effect.httpRequest
        (sqlB cfg.table (toCHDateTime64 (utcRangeForYesterday t).1)
          (toCHDateTime64 (utcRangeForYesterday t).2))]) ∧
    Effect.gzipFile ∉ (mainA t cfg resp).2 ∧
    Effect.gzipFile ∉ (mainB t cfg resp).2 ∧
    (∀ nm, Effect.writeFile nm ∉ (mainA t cfg resp).2 ∧
           Effect.upload nm ∉ (mainA t cfg resp).2 ∧
           Effect.writeFile nm ∉ (mainB t cfg resp).2 ∧
           Effect.upload nm ∉ (mainB t cfg resp).2) := by
  have hmA : mainA t cfg resp = (1, [Effect.httpRequest (sqlA cfg.table)]) := by
    unfold mainA
    simp only []
    rw [chQueryA_non2xx _ cfg resp hurl hok]
  have hmB : mainB t cfg resp =
      (1, [Effect.httpRequest
        (sqlB cfg.table (toCHDateTime64 (utcRangeForYesterday t).1)
          (toCHDateTime64 (utcRangeForYesterday t).2))]) := by
    unfold mainB
    simp only []
    rw [chQueryB_non2xx _ cfg resp hurl hok]
  refine ⟨chQueryA_non2xx sql cfg resp hurl hok,
          chQueryB_non2xx sql cfg resp hurl hok,
          by simp [List.length_take], by simp [List.length_take],
          hmA, hmB, ?_, ?_, fun nm => ⟨?_, ?_, ?_, ?_⟩⟩
  all_goals first | (rw [hmA]; simp) | (rw [hmB]; simp)

/-- Witness for C2: a 500 response with body `internal error` at a valid
config yields the `ClickHouse HTTP 500` error and an exit-1 run whose only
action is the query. -/
theorem claim2_non2xx_witness :
    (chQueryA ("q".toList) cfgGood respServerError).1 =
      Except.error ("ClickHouse HTTP 500: internal error".toList) ∧
    mainA 0 cfgGood respServerError =
      (1, [Effect.httpRequest (sqlA cfgGood.table)]) := by
  have h := claim2_non2xx_query_failed 0 cfgGood respServerError ("q".toList)
    (by decide) (by decide)
  refine ⟨?_, h.2.2.2.2.1⟩
  rw [h.1]
  simp only []
  exact congrArg Except.error (by decide)

theorem jsTrim_sandwich (a b : Char) (inner : List Char)
    (ha : jsWhitespace a = false) (hb : jsWhitespace b = false) :
    jsTrim ('\n' :: a :: (inner ++ [b, '\n'])) = a :: (inner ++ [b]) := by
  have hnl : jsWhitespace '\n' = true := by decide
  unfold jsTrim trimStart trimEnd
  rw [List.dropWhile_cons, if_pos hnl, List.dropWhile_cons,
    if_neg (by simp [ha])]
  have hrev : (a :: (inner ++ [b, '\n'])).reverse =
      '\n' :: b :: (inner.reverse ++ [a]) := by simp
  rw [hrev, List.dropWhile_cons, if_pos hnl, List.dropWhile_cons,
    if_neg (by simp [hb])]
  simp

set_option maxRecDepth 8000 in
theorem sqlA_eq (table : List Char) :
    sqlA table = sqlAPre ++ table ++ sqlAPost := by
  unfold sqlA
  have e1 : ("\nWITH\n  toStartOfDay(now(\x27UTC\x27)) AS today_utc,\n  today_utc - INTERVAL 1 DAY AS yesterday_utc\nSELECT\n  dt,\n  raw\nFROM remote(").toList =
      '\n' :: 'W' :: ("ITH\n  toStartOfDay(now(\x27UTC\x27)) AS today_utc,\n  today_utc - INTERVAL 1 DAY AS yesterday_utc\nSELECT\n  dt,\n  raw\nFROM remote(").toList := by
    decide
  have e2 : (")\nWHERE dt >= yesterday_utc\n  AND dt <  today_utc\n  AND JSONExtractString(raw, \x27syslog.appname\x27) NOT LIKE \x27dpg-%\x27\nORDER BY dt ASC\nFORMAT JSONEachRow\n").toList =
      (")\nWHERE dt >= yesterday_utc\n  AND dt <  today_utc\n  AND JSONExtractString(raw, \x27syslog.appname\x27) NOT LIKE \x27dpg-%\x27\nORDER BY dt ASC\nFORMAT JSONEachRo").toList ++ ['w', '\n'] := by
    decide
  rw [e1, e2]
  have e3 : ('\n' :: 'W' :: ("ITH\n  toStartOfDay(now(\x27UTC\x27)) AS today_utc,\n  today_utc - INTERVAL 1 DAY AS yesterday_utc\nSELECT\n  dt,\n  raw\nFROM remote(").toList) ++
      table ++
      ((")\nWHERE dt >= yesterday_utc\n  AND dt <  today_utc\n  AND JSONExtractString(raw, \x27syslog.appname\x27) NOT LIKE \x27dpg-%\x27\nORDER BY dt ASC\nFORMAT JSONEachRo").toList ++ ['w', '\n']) =
      '\n' :: 'W' :: ((("ITH\n  toStartOfDay(now(\x27UTC\x27)) AS today_utc,\n  today_utc - INTERVAL 1 DAY AS yesterday_utc\nSELECT\n  dt,\n  raw\nFROM remote(").toList ++
        table ++
        (")\nWHERE dt >= yesterday_utc\n  AND dt <  today_utc\n  AND JSONExtractString(raw, \x27syslog.appname\x27) NOT LIKE \x27dpg-%\x27\nORDER BY dt ASC\nFORMAT JSONEachRo").toList) ++ ['w', '\n']) := by
    simp [List.append_assoc]
  rw [e3, jsTrim_sandwich 'W' 'w' _ (by decide) (by decide)]
  have e4 : sqlAPre = 'W' :: ("ITH\n  toStartOfDay(now(\x27UTC\x27)) AS today_utc,\n  today_utc - INTERVAL 1 DAY AS yesterday_utc\nSELECT\n  dt,\n  raw\nFROM remote(").toList := by
    decide
  have e5 : sqlAPost = (")\nWHERE dt >= yesterday_utc\n  AND dt <  today_utc\n  AND JSONExtractString(raw, \x27syslog.appname\x27) NOT LIKE \x27dpg-%\x27\nORDER BY dt ASC\nFORMAT JSONEachRo").toList ++ ['w'] := by
    decide
  rw [e4, e5]
  simp [List.append_assoc]

set_option maxRecDepth 8000 in
theorem sqlB_eq (table s e : List Char) :
    sqlB table s e =
      sqlBPre ++ table ++ sqlBMid1 ++ s ++ sqlBMid2 ++ e ++ sqlBPost := by
  unfold sqlB sqlBPre sqlBMid1 sqlBMid2 sqlBPost
  have e1 : ("\nSELECT\n  dt,\n  raw\nFROM remote(").toList =
      '\n' :: 'S' :: ("ELECT\n  dt,\n  raw\nFROM remote(").toList := by decide
  have e2 : ("\x27, 3, \x27UTC\x27)\nORDER BY dt ASC\nFORMAT JSONEachRow\n").toList =
      ("\x27, 3, \x27UTC\x27)\nORDER BY dt ASC\nFORMAT JSONEachRo").toList ++
        ['w', '\n'] := by decide
  rw [e1, e2]
  have e3 : ('\n' :: 'S' :: ("ELECT\n  dt,\n  raw\nFROM remote(").toList) ++
      table ++ (")\nWHERE dt >= toDateTime64(\x27").toList ++ s ++
      ("\x27, 3, \x27UTC\x27)\n  AND dt <  toDateTime64(\x27").toList ++ e ++
      (("\x27, 3, \x27UTC\x27)\nORDER BY dt ASC\nFORMAT JSONEachRo").toList ++
        ['w', '\n']) =
      '\n' :: 'S' :: ((("ELECT\n  dt,\n  raw\nFROM remote(").toList ++
        table ++ (")\nWHERE dt >= toDateTime64(\x27").toList ++ s ++
        ("\x27, 3, \x27UTC\x27)\n  AND dt <  toDateTime64(\x27").toList ++ e ++
        ("\x27, 3, \x27UTC\x27)\nORDER BY dt ASC\nFORMAT JSONEachRo").toList) ++
        ['w', '\n']) := by
    simp [List.append_assoc]
  rw [e3, jsTrim_sandwich 'S' 'w' _ (by decide) (by decide)]
  have e4 : ("SELECT\n  dt,\n  raw\nFROM remote(").toList =
      'S' :: ("ELECT\n  dt,\n  raw\nFROM remote(").toList := by decide
  have e5 : ("\x27, 3, \x27UTC\x27)\nORDER BY dt ASC\nFORMAT JSONEachRow").toList =
      ("\x27, 3, \x27UTC\x27)\nORDER BY dt ASC\nFORMAT JSONEachRo").toList ++
        ['w'] := by decide
  rw [e4, e5]
  simp [List.append_assoc]

set_option maxRecDepth 8000 in
/-- C3: for every table name and time window, the rendered query of each
variant contains the table name verbatim, its `SELECT` clause lists
exactly the two columns `dt` and `raw`, the window bounds use `>=` (lower)
and `<` (upper) on `dt`, rows are ordered by `ORDER BY dt ASC`, and the
text ends with `FORMAT JSONEachRow`. -/
theorem claim3_query_shape (table : List Char) (wstart wend : Int) :
    ((∃ u v, sqlA table = u ++ table ++ v) ∧
     (∃ u v, sqlA table = u ++ ("SELECT\n  dt,\n  raw\nFROM").toList ++ v) ∧
     (∃ u v, sqlA table = u ++ ("WHERE dt >= ").toList ++ v) ∧
     (∃ u v, sqlA table = u ++ ("AND dt <  ").toList ++ v) ∧
     (∃ u v, sqlA table = u ++ ("ORDER BY dt ASC").toList ++ v) ∧
     (∃ u, sqlA table = u ++ ("FORMAT JSONEachRow").toList)) ∧
    ((∃ u v, sqlB table (toCHDateTime64 wstart) (toCHDateTime64 wend) =
        u ++ table ++ v) ∧
     (∃ u v, sqlB table (toCHDateTime64 wstart) (toCHDateTime64 wend) =
        u ++ ("SELECT\n  dt,\n  raw\nFROM").toList ++ v) ∧
     (∃ u v, sqlB table (toCHDateTime64 wstart) (toCHDateTime64 wend) =
        u ++ ("WHERE dt >= ").toList ++ v) ∧
     (∃ u v, sqlB table (toCHDateTime64 wstart) (toCHDateTime64 wend) =
        u ++ ("AND dt <  ").toList ++ v) ∧
     (∃ u v, sqlB table (toCHDateTime64 wstart) (toCHDateTime64 wend) =
        u ++ ("ORDER BY dt ASC").toList ++ v) ∧
     (∃ u, sqlB table (toCHDateTime64 wstart) (toCHDateTime64 wend) =
        u ++ ("FORMAT JSONEachRow").toList)) := by
  rw [sqlA_eq table, sqlB_eq table (toCHDateTime64 wstart) (toCHDateTime64 wend)]
  constructor
  · refine ⟨⟨sqlAPre, sqlAPost, rfl⟩, ?_, ?_, ?_, ?_, ?_⟩
    · refine ⟨("WITH\n  toStartOfDay(now(\x27UTC\x27)) AS today_utc,\n  today_utc - INTERVAL 1 DAY AS yesterday_utc\n").toList,
        (" remote(").toList ++ table ++ sqlAPost, ?_⟩
      rw [show sqlAPre = ("WITH\n  toStartOfDay(now(\x27UTC\x27)) AS today_utc,\n  today_utc - INTERVAL 1 DAY AS yesterday_utc\n").toList ++
        ("SELECT\n  dt,\n  raw\nFROM").toList ++ (" remote(").toList from by decide]
      simp [List.append_assoc]
    · refine ⟨sqlAPre ++ table ++ (")\n").toList,
        ("yesterday_utc\n  AND dt <  today_utc\n  AND JSONExtractString(raw, \x27syslog.appname\x27) NOT LIKE \x27dpg-%\x27\nORDER BY dt ASC\nFORMAT JSONEachRow").toList, ?_⟩
      rw [show sqlAPost = (")\n").toList ++ ("WHERE dt >= ").toList ++
        ("yesterday_utc\n  AND dt <  today_utc\n  AND JSONExtractString(raw, \x27syslog.appname\x27) NOT LIKE \x27dpg-%\x27\nORDER BY dt ASC\nFORMAT JSONEachRow").toList from by decide]
      simp [List.append_assoc]
    · refine ⟨sqlAPre ++ table ++ (")\nWHERE dt >= yesterday_utc\n  ").toList,
        ("today_utc\n  AND JSONExtractString(raw, \x27syslog.appname\x27) NOT LIKE \x27dpg-%\x27\nORDER BY dt ASC\nFORMAT JSONEachRow").toList, ?_⟩
      rw [show sqlAPost = (")\nWHERE dt >= yesterday_utc\n  ").toList ++
        ("AND dt <  ").toList ++
        ("today_utc\n  AND JSONExtractString(raw, \x27syslog.appname\x27) NOT LIKE \x27dpg-%\x27\nORDER BY dt ASC\nFORMAT JSONEachRow").toList from by decide]
      simp [List.append_assoc]
    · refine ⟨sqlAPre ++ table ++
        (")\nWHERE dt >= yesterday_utc\n  AND dt <  today_utc\n  AND JSONExtractString(raw, \x27syslog.appname\x27) NOT LIKE \x27dpg-%\x27\n").toList,
        ("\nFORMAT JSONEachRow").toList, ?_⟩
      rw [show sqlAPost = (")\nWHERE dt >= yesterday_utc\n  AND dt <  today_utc\n  AND JSONExtractString(raw, \x27syslog.appname\x27) NOT LIKE \x27dpg-%\x27\n").toList ++
        ("ORDER BY dt ASC").toList ++ ("\nFORMAT JSONEachRow").toList from by decide]
      simp [List.append_assoc]
    · refine ⟨sqlAPre ++ table ++
        (")\nWHERE dt >= yesterday_utc\n  AND dt <  today_utc\n  AND JSONExtractString(raw, \x27syslog.appname\x27) NOT LIKE \x27dpg-%\x27\nORDER BY dt ASC\n").toList, ?_⟩
      rw [show sqlAPost = (")\nWHERE dt >= yesterday_utc\n  AND dt <  today_utc\n  AND JSONExtractString(raw, \x27syslog.appname\x27) NOT LIKE \x27dpg-%\x27\nORDER BY dt ASC\n").toList ++
        ("FORMAT JSONEachRow").toList from by decide]
      simp [List.append_assoc]
  · refine ⟨⟨sqlBPre,
      sqlBMid1 ++ toCHDateTime64 wstart ++ sqlBMid2 ++ toCHDateTime64 wend ++
        sqlBPost, by simp [List.append_assoc]⟩, ?_, ?_, ?_, ?_, ?_⟩
    · refine ⟨[], (" remote(").toList ++ table ++ sqlBMid1 ++
        toCHDateTime64 wstart ++ sqlBMid2 ++ toCHDateTime64 wend ++ sqlBPost, ?_⟩
      rw [show sqlBPre = ("SELECT\n  dt,\n  raw\nFROM").toList ++
        (" remote(").toList from by decide]
      simp [List.append_assoc]
    · refine ⟨sqlBPre ++ table ++ (")\n").toList,
        ("toDateTime64(\x27").toList ++ toCHDateTime64 wstart ++ sqlBMid2 ++
          toCHDateTime64 wend ++ sqlBPost, ?_⟩
      rw [show sqlBMid1 = (")\n").toList ++ ("WHERE dt >= ").toList ++
        ("toDateTime64(\x27").toList from by decide]
      simp [List.append_assoc]
    · refine ⟨sqlBPre ++ table ++ sqlBMid1 ++ toCHDateTime64 wstart ++
        ("\x27, 3, \x27UTC\x27)\n  ").toList,
        ("toDateTime64(\x27").toList ++ toCHDateTime64 wend ++ sqlBPost, ?_⟩
      rw [show sqlBMid2 = ("\x27, 3, \x27UTC\x27)\n  ").toList ++
        ("AND dt <  ").toList ++ ("toDateTime64(\x27").toList from by decide]
      simp [List.append_assoc]
    · refine ⟨sqlBPre ++ table ++ sqlBMid1 ++ toCHDateTime64 wstart ++
        sqlBMid2 ++ toCHDateTime64 wend ++ ("\x27, 3, \x27UTC\x27)\n").toList,
        ("\nFORMAT JSONEachRow").toList, ?_⟩
      rw [show sqlBPost = ("\x27, 3, \x27UTC\x27)\n").toList ++
        ("ORDER BY dt ASC").toList ++ ("\nFORMAT JSONEachRow").toList from by decide]
      simp [List.append_assoc]
    · refine ⟨sqlBPre ++ table ++ sqlBMid1 ++ toCHDateTime64 wstart ++
        sqlBMid2 ++ toCHDateTime64 wend ++
        ("\x27, 3, \x27UTC\x27)\nORDER BY dt ASC\n").toList, ?_⟩
      rw [show sqlBPost = ("\x27, 3, \x27UTC\x27)\nORDER BY dt ASC\n").toList ++
        ("FORMAT JSONEachRow").toList from by decide]
      simp [List.append_assoc]
